import Mathlib

/-!
Verification of the image-editor annotation state machine (`src/main.py`).

The Python program is a Streamlit script.  Its state lives in
`st.session_state` (keys `drawings`, `current_tool`, `bg_removed_image`,
`original_image`, `active_image`, `start_point`, `original_filename`);
each user interaction reruns the script top to bottom.  We embed that
state as an explicit record and each relevant code path as a pure
function from state (plus the event's inputs) to state.

Machine details that the claims do not touch — the matplotlib figure
handle `fig`, actual pixel buffers, PNG encoding — are abstracted: an
image is a record of its PIL `mode` string and an opaque content id,
and the two rendering paths are embedded as the list of drawing
commands they issue to matplotlib, in order.
-/

/-- The tool modes offered by the sidebar radio widget
(`["select", "line", "measure"]`, `src/main.py` lines 65-69). -/
inductive Tool where
  | select
  | line
  | measure
deriving DecidableEq, Repr

/-- An image, abstracted to its PIL mode string (e.g. `"RGB"`, `"RGBA"`,
`"P"`) and an opaque content identifier.  Pixel data is irrelevant to
every claim except through identity of the reference. -/
structure Image where
  mode : String
  data : Nat
deriving DecidableEq, Repr

/-- `PIL.Image.convert(m)`: reencodes the pixel data in mode `m`.
We track only the resulting mode (the content id is kept as the
abstract identity of "this picture's content"). -/
def Image.convert (img : Image) (m : String) : Image :=
  { img with mode := m }

/-- One committed drawing, exactly the dict appended by
`handle_point_addition` (`src/main.py` lines 178-187): keys `type`,
`x0`, `y0`, `x1`, `y1`, `color`, `width`, `measure`. -/
structure Drawing where
  ty : String
  x0 : Int
  y0 : Int
  x1 : Int
  y1 : Int
  color : String
  width : Nat
  measure : Bool
deriving DecidableEq, Repr

/-- The Streamlit session state (`src/main.py` lines 11-26).  The two
fields `colorKey` and `lineWidthKey` stand for `st.session_state['color']`
and `st.session_state['line_width']`: `handle_point_addition` reads them
with `st.session_state.get(..., default)`, and no statement in the
script ever writes either key (the sidebar widgets at lines 71-72 are
created without a `key=` argument, so their values are bound to local
variables only), so both fields start as `none` and stay `none`.
The matplotlib `fig` handle is omitted (never read by any claim). -/
structure SessionState where
  drawings : List Drawing
  current_tool : Tool
  bg_removed_image : Option Image
  original_image : Option Image
  active_image : Option Image
  start_point : Option (Int × Int)
  original_filename : Option String
  colorKey : Option String
  lineWidthKey : Option Nat
deriving DecidableEq, Repr

/-- The initial session state (`src/main.py` lines 11-26). -/
def initialSession : SessionState :=
  { drawings := []
    current_tool := Tool.select
    bg_removed_image := none
    original_image := none
    active_image := none
    start_point := none
    original_filename := none
    colorKey := none
    lineWidthKey := none }

/-- `handle_point_addition(x, y)` (`src/main.py` lines 169-189).
If the current tool is `line` or `measure`: with no start point, record
`(x, y)` as the start point; otherwise append a completed drawing —
color and width read from the (never written) session keys with
defaults `'#FF0000'` and `2`, `measure` set iff the current tool is
`measure` — and clear the start point.  With tool `select` the call
falls through the outer `if` and does nothing. -/
def handle_point_addition (s : SessionState) (x y : Int) : SessionState :=
  if s.current_tool = Tool.line ∨ s.current_tool = Tool.measure then
    match s.start_point with
    | none => { s with start_point := some (x, y) }
    | some (x0, y0) =>
        { s with
          drawings := s.drawings ++
            [{ ty := "line", x0 := x0, y0 := y0, x1 := x, y1 := y
               color := s.colorKey.getD "#FF0000"
               width := s.lineWidthKey.getD 2
               measure := s.current_tool == Tool.measure }]
          start_point := none }
  else s

/-- The "Clear All Annotations" button handler (`src/main.py` lines
74-76): `drawings = []`, `start_point = None`. -/
def clear_all_drawings (s : SessionState) : SessionState :=
  { s with drawings := [], start_point := none }

/-- The tool-selection radio assignment (`src/main.py` lines 65-69):
`st.session_state.current_tool = st.sidebar.radio(...)`. -/
def set_tool (s : SessionState) (m : Tool) : SessionState :=
  { s with current_tool := m }

/-- Loading a newly uploaded image (`src/main.py` lines 44-47): store
the filename stem, the verified image, and a copy as the active image.
No other session field is touched on this path. -/
def load_image (s : SessionState) (img : Image) (stem : String) : SessionState :=
  { s with
    original_filename := some stem
    original_image := some img
    active_image := some img }

/-- `reset_session_state()` (`src/main.py` lines 220-228); called only
from the outer exception handler at line 107.  (`original_filename` is
not reset by the source either.) -/
def reset_session_state (s : SessionState) : SessionState :=
  { s with
    drawings := []
    current_tool := Tool.select
    bg_removed_image := none
    original_image := none
    active_image := none
    start_point := none }

/-- The sidebar controls of one script run (`src/main.py` lines 65-76):
the radio writes `current_tool`; the color picker and width slider bind
their values to the *local* variables `color` and `line_width` (lines
71-72) — they are dropped here exactly as the source drops them, since
no `key=` is given and nothing else stores them; the clear button, when
clicked, empties the drawings and the start point. -/
def sidebar_controls (s : SessionState) (selectedTool : Tool)
    (pickedColor : String) (pickedWidth : Nat) (clearClicked : Bool) :
    SessionState :=
  let s1 := set_tool s selectedTool
  let _color := pickedColor
  let _line_width := pickedWidth
  if clearClicked then clear_all_drawings s1 else s1

/-- The background-removal button body (`src/main.py` lines 53-62).
`remove` is an external collaborator; its outcome is passed in as an
`Except`.  On success the result is stored as both `bg_removed_image`
and `active_image`; on failure the exception is caught by the inner
`try` and rendered as `st.error(f"Background removal failed: ...")`,
returned here as the surfaced message, with no state change. -/
def remove_background (s : SessionState) (result : Except String Image) :
    SessionState × Option String :=
  match result with
  | Except.ok img =>
      ({ s with bg_removed_image := some img, active_image := some img }, none)
  | Except.error e => (s, some ("Background removal failed: " ++ e))

/-- `verify_and_convert_image` on a successfully opened image
(`src/main.py` lines 110-120): modes `'RGBA'`, `'LA'`, `'P'` are
converted to `'RGB'`; every other mode is returned unchanged. -/
def verify_and_convert_image (img : Image) : Image :=
  if img.mode = "RGBA" ∨ img.mode = "LA" ∨ img.mode = "P" then
    img.convert "RGB"
  else img

/-- The number of tenths of a pixel displayed for a squared distance
`d`: the nearest integer to `10 * sqrt d`, computed with integer
arithmetic via `round x = floor ((floor (2*x) + 1) / 2)`.  This models
the Python float pipeline `distance = (dx**2 + dy**2) ** 0.5` followed
by `f"{distance:.1f}"` (`src/main.py` lines 145-147) under exact real
arithmetic; `tenths_nearest_sqrt` below certifies the rounding. -/
def distTenths (d : Nat) : Nat :=
  (Nat.sqrt (400 * d) + 1) / 2

/-- The squared Euclidean distance of a drawing's endpoints, as a
natural number. -/
def Drawing.distSq (d : Drawing) : Nat :=
  ((d.x1 - d.x0) ^ 2 + (d.y1 - d.y0) ^ 2).toNat

/-- The measurement text drawn at a line's midpoint
(`f"{distance:.1f} px"`, `src/main.py` line 147), as the integer number
of tenths rendered with one decimal digit and a `" px"` suffix. -/
def measurementLabel (d : Drawing) : String :=
  let t := distTenths d.distSq
  toString (t / 10) ++ "." ++ toString (t % 10) ++ " px"

/-- One drawing command issued to matplotlib: showing the base image
(`ax.imshow`), adding a line (`plt.Line2D` + `ax.add_line`), or placing
a text label (`ax.text`).  Midpoint coordinates are rationals since the
source divides by 2. -/
inductive DrawOp where
  | base (img : Image)
  | seg (x0 y0 x1 y1 : Int) (color : String) (width : Nat)
  | text (x y : ℚ) (label : String) (color : String)
deriving DecidableEq, Repr

/-- The commands the display path issues for one committed drawing
(`display_image_with_drawing_tools`, `src/main.py` lines 131-150):
for a `'line'` entry, the line in its color and width, then — if
`measure` is set — the distance label at the midpoint in the same
color. -/
def displayOpsOf (d : Drawing) : List DrawOp :=
  if d.ty = "line" then
    [DrawOp.seg d.x0 d.y0 d.x1 d.y1 d.color d.width] ++
      (if d.measure then
        [DrawOp.text (((d.x0 : ℚ) + d.x1) / 2) (((d.y0 : ℚ) + d.y1) / 2)
          (measurementLabel d) d.color]
      else [])
  else []

/-- The commands the file-export path issues for one committed drawing
(`get_annotated_image`, `src/main.py` lines 200-208): for a `'line'`
entry, only the line in its color and width — no measurement text. -/
def exportOpsOf (d : Drawing) : List DrawOp :=
  if d.ty = "line" then
    [DrawOp.seg d.x0 d.y0 d.x1 d.y1 d.color d.width]
  else []

/-- The full command list of the on-screen display path
(`src/main.py` lines 126-150): the active image, then the annotations
in order. -/
def displayOps (img : Image) (ds : List Drawing) : List DrawOp :=
  DrawOp.base img :: ds.flatMap displayOpsOf

/-- The full command list of the file-export path
(`src/main.py` lines 195-208): the active image, then only the
annotation lines, in order. -/
def exportOps (img : Image) (ds : List Drawing) : List DrawOp :=
  DrawOp.base img :: ds.flatMap exportOpsOf

/-- Recognizes a text-label command. -/
def DrawOp.isText : DrawOp → Bool
  | DrawOp.text _ _ _ _ => true
  | _ => false

/-- A committed measurement drawing from (0,0) to (3,4), as
`handle_point_addition` would append it in measure mode. -/
def measureDrawing : Drawing :=
  { ty := "line", x0 := 0, y0 := 0, x1 := 3, y1 := 4
    color := "#FF0000", width := 2, measure := true }

/-- A committed plain line drawing (no measurement). -/
def plainDrawing : Drawing :=
  { ty := "line", x0 := 1, y0 := 2, x1 := 3, y1 := 4
    color := "#FF0000", width := 2, measure := false }

/-- A concrete base image. -/
def baseImg : Image := { mode := "RGB", data := 1 }

/-- A session mid-work: one committed drawing, a pending start point,
measure tool active. -/
def busySession : SessionState :=
  { initialSession with
    drawings := [measureDrawing]
    start_point := some (7, 7)
    current_tool := Tool.measure }

/-- C5: submitting a point while the tool is `select` leaves both the
committed drawing list and the pending start point unchanged — the
guard at `src/main.py` line 171 fails and the handler does nothing. -/
theorem submit_select_noop (s : SessionState) (x y : Int)
    (h : s.current_tool = Tool.select) :
    (handle_point_addition s x y).drawings = s.drawings ∧
      (handle_point_addition s x y).start_point = s.start_point := by
  simp [handle_point_addition, h]

theorem submit_select_noop_witness :
    initialSession.current_tool = Tool.select ∧
      ((handle_point_addition initialSession 1 2).drawings =
          initialSession.drawings ∧
        (handle_point_addition initialSession 1 2).start_point =
          initialSession.start_point) :=
  ⟨rfl, submit_select_noop initialSession 1 2 rfl⟩

/-- C6: the "Clear All Annotations" handler unconditionally leaves the
committed drawing list empty and the pending start point empty
(`src/main.py` lines 74-76). -/
theorem clear_all_empties (s : SessionState) :
    (clear_all_drawings s).drawings = [] ∧
      (clear_all_drawings s).start_point = none :=
  ⟨rfl, rfl⟩

/-- C3 counterexample: loading a new image over a session that holds a
committed drawing, a pending point and the measure tool does NOT reset
any of them — `main` (lines 44-47) only stores the filename and the
image; `reset_session_state` is reached only from the exception handler
at line 107. -/
theorem load_image_keeps_prior_state :
    (load_image busySession baseImg "photo").drawings = [measureDrawing] ∧
      (load_image busySession baseImg "photo").start_point = some (7, 7) ∧
      (load_image busySession baseImg "photo").current_tool = Tool.measure :=
  ⟨rfl, rfl, rfl⟩

/-- C3 amended: loading a new base image leaves the committed drawing
list, the pending start point and the tool mode unchanged (only
`original_image`, `active_image` and `original_filename` are replaced);
the reset to initial values (`[]`, empty, `select`) is performed only by
`reset_session_state`, which `main` invokes solely when processing
raises an error. -/
theorem load_image_preserves_and_reset_resets (s : SessionState)
    (img : Image) (stem : String) :
    ((load_image s img stem).drawings = s.drawings ∧
      (load_image s img stem).start_point = s.start_point ∧
      (load_image s img stem).current_tool = s.current_tool) ∧
    ((reset_session_state s).drawings = [] ∧
      (reset_session_state s).start_point = none ∧
      (reset_session_state s).current_tool = Tool.select) :=
  ⟨⟨rfl, rfl, rfl⟩, ⟨rfl, rfl, rfl⟩⟩

/-- C7: when the external background-removal call fails, the session
state is returned exactly as it was — in particular the active image
and the drawing list — and the human-readable message
`"Background removal failed: ..."` is surfaced
(`src/main.py` lines 53-62). -/
theorem remove_background_failure_preserves_state (s : SessionState)
    (e : String) :
    (remove_background s (Except.error e)).1 = s ∧
      (remove_background s (Except.error e)).2 =
        some ("Background removal failed: " ++ e) :=
  ⟨rfl, rfl⟩

/-- C2, evaluated at the failing input: a fresh session in which the
user selects the line tool, picks color `#00FF00` and width `5`, then
submits (0,0) and (1,1).  The appended drawing carries the defaults
`#FF0000` and `2`, not the picked values: the picker and slider of
`src/main.py` lines 71-72 bind local variables only (no `key=`), so the
`st.session_state.get('color'/'line_width', ...)` reads at lines
184-185 always fall back to their defaults. -/
theorem picked_color_width_ignored :
    (handle_point_addition
        (handle_point_addition
          (sidebar_controls initialSession Tool.line "#00FF00" 5 false) 0 0)
        1 1).drawings =
      [{ ty := "line", x0 := 0, y0 := 0, x1 := 1, y1 := 1
         color := "#FF0000", width := 2, measure := false }] ∧
    (handle_point_addition
        (handle_point_addition
          (sidebar_controls initialSession Tool.line "#00FF00" 5 false) 0 0)
        1 1).start_point = none := by
  constructor <;> rfl

/-- The PIL modes that `PIL.Image.open` can produce for the upload
formats the sidebar accepts (jpg/jpeg/png): PNG decodes to `1`, `L`,
`LA`, `I`, `P`, `RGB` or `RGBA`; JPEG decodes to `L`, `RGB` or `CMYK`.
Modelled from PIL's documented decoder behavior (the library is an
external collaborator of `verify_and_convert_image`). -/
def pilOpenModes : List String :=
  ["1", "L", "LA", "I", "P", "RGB", "RGBA", "CMYK"]

/-- Following the claim's words: does a PIL mode carry an alpha channel
(`RGBA`, `LA`, `PA`, `RGBa`, `La`) or a palette (`P`, `PA`)?  Stated
over all PIL modes, to be compared with the source's membership test
`mode in ('RGBA', 'LA', 'P')`. -/
def specHasAlphaOrPalette (m : String) : Bool :=
  m ∈ ["RGBA", "LA", "PA", "RGBa", "La", "P"]

/-- C9: for every image that `Image.open` can yield from an uploaded
jpg/jpeg/png, `verify_and_convert_image` converts it to plain `RGB`
exactly when its mode has an alpha or palette channel, and returns it
unchanged otherwise — over this mode domain the source's test
`('RGBA', 'LA', 'P')` coincides with "has alpha or palette". -/
theorem verify_convert_matches_alpha_palette (m : String) (n : Nat)
    (h : m ∈ pilOpenModes) :
    verify_and_convert_image { mode := m, data := n } =
      (if specHasAlphaOrPalette m then
        Image.convert { mode := m, data := n } "RGB"
      else { mode := m, data := n }) := by
  simp only [pilOpenModes, List.mem_cons, List.not_mem_nil, or_false] at h
  rcases h with rfl | rfl | rfl | rfl | rfl | rfl | rfl | rfl <;> rfl

theorem verify_convert_matches_alpha_palette_witness :
    "RGBA" ∈ pilOpenModes ∧
      verify_and_convert_image { mode := "RGBA", data := 0 } =
        (if specHasAlphaOrPalette "RGBA" then
          Image.convert { mode := "RGBA", data := 0 } "RGB"
        else { mode := "RGBA", data := 0 }) :=
  ⟨by decide, verify_convert_matches_alpha_palette "RGBA" 0 (by decide)⟩

/-- C10: the `measure` flag of a committed drawing is decided by the
tool in force at the moment of the *second* submission (`m` below,
whatever tool the session held before), an existing pending point
survives every tool change, and submitting while the tool is `select`
leaves the pending point and the drawings alone — so a gesture begun in
line mode and finished after switching to measure yields a measurement
drawing. -/
theorem measure_flag_at_second_submission (s : SessionState)
    (x0 y0 x y : Int) (m : Tool) (hp : s.start_point = some (x0, y0))
    (hm : m = Tool.line ∨ m = Tool.measure) :
    ((handle_point_addition (set_tool s m) x y).drawings =
      s.drawings ++
        [{ ty := "line", x0 := x0, y0 := y0, x1 := x, y1 := y
           color := s.colorKey.getD "#FF0000"
           width := s.lineWidthKey.getD 2
           measure := m == Tool.measure }]) ∧
    (∀ m2 : Tool, (set_tool s m2).start_point = s.start_point ∧
      (set_tool s m2).drawings = s.drawings) ∧
    ((handle_point_addition (set_tool s Tool.select) x y).start_point =
        s.start_point ∧
      (handle_point_addition (set_tool s Tool.select) x y).drawings =
        s.drawings) := by
  refine ⟨?_, fun m2 => ⟨rfl, rfl⟩, ?_, ?_⟩
  · rcases hm with rfl | rfl <;> simp [handle_point_addition, set_tool, hp]
  · simp [handle_point_addition, set_tool]
  · simp [handle_point_addition, set_tool]

theorem measure_flag_at_second_submission_witness :
    (handle_point_addition (set_tool initialSession Tool.line) 10 10).start_point
        = some (10, 10) ∧
    (Tool.measure = Tool.line ∨ Tool.measure = Tool.measure) ∧
    (((handle_point_addition
        (set_tool (handle_point_addition (set_tool initialSession Tool.line) 10 10)
          Tool.measure) 10 20).drawings =
      (handle_point_addition (set_tool initialSession Tool.line) 10 10).drawings ++
        [{ ty := "line", x0 := 10, y0 := 10, x1 := 10, y1 := 20
           color := (handle_point_addition (set_tool initialSession Tool.line) 10 10).colorKey.getD "#FF0000"
           width := (handle_point_addition (set_tool initialSession Tool.line) 10 10).lineWidthKey.getD 2
           measure := Tool.measure == Tool.measure }]) ∧
    (∀ m2 : Tool, (set_tool (handle_point_addition (set_tool initialSession Tool.line) 10 10) m2).start_point =
        (handle_point_addition (set_tool initialSession Tool.line) 10 10).start_point ∧
      (set_tool (handle_point_addition (set_tool initialSession Tool.line) 10 10) m2).drawings =
        (handle_point_addition (set_tool initialSession Tool.line) 10 10).drawings) ∧
    ((handle_point_addition (set_tool (handle_point_addition (set_tool initialSession Tool.line) 10 10) Tool.select) 10 20).start_point =
        (handle_point_addition (set_tool initialSession Tool.line) 10 10).start_point ∧
      (handle_point_addition (set_tool (handle_point_addition (set_tool initialSession Tool.line) 10 10) Tool.select) 10 20).drawings =
        (handle_point_addition (set_tool initialSession Tool.line) 10 10).drawings)) :=
  ⟨rfl, Or.inr rfl,
    measure_flag_at_second_submission
      (handle_point_addition (set_tool initialSession Tool.line) 10 10)
      10 10 10 20 Tool.measure rfl (Or.inr rfl)⟩

/-- C1 counterexample: for the base image and a single measurement
drawing, the display path issues a text-label command that the export
path never issues, so the exported buffer does not render identically
to the on-screen composite. -/
theorem display_export_differ_on_measurement :
    displayOps baseImg [measureDrawing] ≠ exportOps baseImg [measureDrawing] := by
  decide

/-- Per-drawing refinement: the export path's commands for one drawing
are exactly the display path's commands with text labels removed. -/
theorem exportOpsOf_eq_filter (d : Drawing) :
    exportOpsOf d = (displayOpsOf d).filter (fun op => !op.isText) := by
  by_cases hty : d.ty = "line" <;> by_cases hmeas : d.measure <;>
    simp [displayOpsOf, exportOpsOf, hty, hmeas, DrawOp.isText]

/-- Per-drawing agreement without measurements. -/
theorem displayOpsOf_eq_of_not_measure (d : Drawing) (h : d.measure = false) :
    displayOpsOf d = exportOpsOf d := by
  by_cases hty : d.ty = "line" <;>
    simp [displayOpsOf, exportOpsOf, hty, h]

/-- The drawing-command streams of the two paths, heads aside: export
is display with the text labels filtered out. -/
theorem flatMap_export_eq_filter (ds : List Drawing) :
    ds.flatMap exportOpsOf =
      (ds.flatMap displayOpsOf).filter (fun op => !op.isText) := by
  induction ds with
  | nil => rfl
  | cons d ds ih =>
      simp only [List.flatMap_cons, List.filter_append, ih,
        exportOpsOf_eq_filter]

/-- Without measurement drawings the two streams coincide. -/
theorem flatMap_display_eq_export (ds : List Drawing)
    (h : ∀ d ∈ ds, d.measure = false) :
    ds.flatMap displayOpsOf = ds.flatMap exportOpsOf := by
  induction ds with
  | nil => rfl
  | cons d ds ih =>
      have hd := displayOpsOf_eq_of_not_measure d (h d (List.mem_cons_self d ds))
      have ht : ∀ d ∈ ds, d.measure = false :=
        fun d hdm => h d (List.mem_cons_of_mem _ hdm)
      simp only [List.flatMap_cons, hd, ih ht]

/-- C1 amended: both paths draw every drawing's line in its own color
and width in the same order, but only the display path draws the
measurement labels: the export path's command list is exactly the
display path's with the text commands removed, and the two coincide
precisely on lists with no measurement drawing. -/
theorem export_ops_refine_display_ops (img : Image) (ds : List Drawing) :
    exportOps img ds = (displayOps img ds).filter (fun op => !op.isText) ∧
      ((∀ d ∈ ds, d.measure = false) → displayOps img ds = exportOps img ds) := by
  constructor
  · unfold exportOps displayOps
    rw [List.filter_cons_of_pos rfl, flatMap_export_eq_filter]
  · intro h
    unfold exportOps displayOps
    rw [flatMap_display_eq_export ds h]

theorem export_ops_refine_display_ops_witness :
    displayOps baseImg [plainDrawing] = exportOps baseImg [plainDrawing] :=
  (export_ops_refine_display_ops baseImg [plainDrawing]).2 (by decide)

/-- A sequence of point submissions: before each, the sidebar radio
fixes the tool for that script run (`src/main.py` lines 65-69), then
the "Add Point" button calls `handle_point_addition`
(lines 162-163). -/
def submit_events (s : SessionState) (evs : List (Tool × Int × Int)) :
    SessionState :=
  evs.foldl (fun t e => handle_point_addition (set_tool t e.1) e.2.1 e.2.2) s

/-- 1 when a start point is pending, 0 otherwise. -/
def pendingCount (s : SessionState) : Nat :=
  if s.start_point.isSome then 1 else 0

theorem submit_events_cons (s : SessionState) (e : Tool × Int × Int)
    (evs : List (Tool × Int × Int)) :
    submit_events s (e :: evs) =
      submit_events (handle_point_addition (set_tool s e.1) e.2.1 e.2.2) evs :=
  rfl

/-- Step invariant: a submission with the tool set to `line` or
`measure` flips the pending bit and grows the drawing list exactly when
it consumes a pending point. -/
theorem submit_events_count (evs : List (Tool × Int × Int)) :
    ∀ s : SessionState,
      (∀ e ∈ evs, e.1 = Tool.line ∨ e.1 = Tool.measure) →
      (submit_events s evs).drawings.length =
          s.drawings.length + (pendingCount s + evs.length) / 2 ∧
        pendingCount (submit_events s evs) =
          (pendingCount s + evs.length) % 2 := by
  induction evs with
  | nil =>
      intro s _
      by_cases hb : s.start_point.isSome <;>
        simp [submit_events, pendingCount, hb]
  | cons e evs ih =>
      intro s h
      obtain ⟨m, x, y⟩ := e
      have hm := h _ (List.mem_cons_self _ _)
      have hrest : ∀ e ∈ evs, e.1 = Tool.line ∨ e.1 = Tool.measure :=
        fun e he => h e (List.mem_cons_of_mem _ he)
      rw [submit_events_cons]
      cases hsp : s.start_point with
      | none =>
          have hstep : handle_point_addition (set_tool s m) x y =
              { s with current_tool := m, start_point := some (x, y) } := by
            rcases hm with rfl | rfl <;>
              simp [handle_point_addition, set_tool, hsp]
          rw [hstep]
          obtain ⟨h1, h2⟩ := ih _ hrest
          have hpc : pendingCount s = 0 := by simp [pendingCount, hsp]
          have hpc2 : pendingCount
              { s with current_tool := m, start_point := some (x, y) } = 1 := by
            simp [pendingCount]
          have hlen : ({ s with current_tool := m, start_point := some (x, y) } :
              SessionState).drawings.length = s.drawings.length := rfl
          rw [hlen, hpc2] at h1
          rw [hpc2] at h2
          simp only [List.length_cons]
          constructor <;> omega
      | some p =>
          obtain ⟨px, py⟩ := p
          have hstep : handle_point_addition (set_tool s m) x y =
              { s with current_tool := m
                       drawings := s.drawings ++
                         [{ ty := "line", x0 := px, y0 := py, x1 := x, y1 := y
                            color := s.colorKey.getD "#FF0000"
                            width := s.lineWidthKey.getD 2
                            measure := m == Tool.measure }]
                       start_point := none } := by
            rcases hm with rfl | rfl <;>
              simp [handle_point_addition, set_tool, hsp]
          rw [hstep]
          obtain ⟨h1, h2⟩ := ih _ hrest
          have hpc : pendingCount s = 1 := by simp [pendingCount, hsp]
          have hpc2 : pendingCount
              { s with current_tool := m
                       drawings := s.drawings ++
                         [{ ty := "line", x0 := px, y0 := py, x1 := x, y1 := y
                            color := s.colorKey.getD "#FF0000"
                            width := s.lineWidthKey.getD 2
                            measure := m == Tool.measure }]
                       start_point := none } = 0 := by
            simp [pendingCount]
          have hlen : ({ s with
              current_tool := m
              drawings := s.drawings ++
                [{ ty := "line", x0 := px, y0 := py, x1 := x, y1 := y
                   color := s.colorKey.getD "#FF0000"
                   width := s.lineWidthKey.getD 2
                   measure := m == Tool.measure }]
              start_point := none } :
              SessionState).drawings.length = s.drawings.length + 1 := by
            simp
          rw [hlen, hpc2] at h1
          rw [hpc2] at h2
          simp only [List.length_cons]
          constructor <;> omega

/-- C4: over any sequence of submissions each made while the tool is
`line` or `measure`, starting with no pending point: the drawing count
grows by exactly one per completed pair, and a start point is pending
after an odd number of submissions and absent after an even number. -/
theorem submit_pair_parity (s : SessionState) (evs : List (Tool × Int × Int))
    (hstart : s.start_point = none)
    (h : ∀ e ∈ evs, e.1 = Tool.line ∨ e.1 = Tool.measure) :
    (submit_events s evs).drawings.length =
        s.drawings.length + evs.length / 2 ∧
      ((submit_events s evs).start_point ≠ none ↔ evs.length % 2 = 1) := by
  obtain ⟨h1, h2⟩ := submit_events_count evs s h
  have hpc : pendingCount s = 0 := by simp [pendingCount, hstart]
  rw [hpc, Nat.zero_add] at h1 h2
  refine ⟨h1, ?_⟩
  cases hopt : (submit_events s evs).start_point with
  | none =>
      simp only [pendingCount, hopt, Option.isSome_none, Bool.false_eq_true,
        if_false] at h2
      simp only [ne_eq, not_true_eq_false, false_iff]
      omega
  | some p =>
      simp only [pendingCount, hopt, Option.isSome_some, if_true] at h2
      simp only [ne_eq, reduceCtorEq, not_false_eq_true, true_iff]
      omega

theorem submit_pair_parity_witness :
    initialSession.start_point = none ∧
      (∀ e ∈ ([(Tool.line, 0, 0), (Tool.measure, 3, 4), (Tool.line, 5, 5)] :
          List (Tool × Int × Int)),
        e.1 = Tool.line ∨ e.1 = Tool.measure) ∧
      ((submit_events initialSession
            [(Tool.line, 0, 0), (Tool.measure, 3, 4), (Tool.line, 5, 5)]).drawings.length =
          initialSession.drawings.length +
            ([(Tool.line, 0, 0), (Tool.measure, 3, 4), (Tool.line, 5, 5)] :
              List (Tool × Int × Int)).length / 2 ∧
        ((submit_events initialSession
              [(Tool.line, 0, 0), (Tool.measure, 3, 4), (Tool.line, 5, 5)]).start_point ≠ none ↔
          ([(Tool.line, 0, 0), (Tool.measure, 3, 4), (Tool.line, 5, 5)] :
            List (Tool × Int × Int)).length % 2 = 1)) :=
  ⟨rfl, by decide,
    submit_pair_parity initialSession
      [(Tool.line, 0, 0), (Tool.measure, 3, 4), (Tool.line, 5, 5)]
      rfl (by decide)⟩

/-- `distSq` is the claim's squared-distance formula, read over ℝ. -/
theorem distSq_cast (d : Drawing) :
    (d.distSq : ℝ) = ((d.x1 : ℝ) - d.x0) ^ 2 + ((d.y1 : ℝ) - d.y0) ^ 2 := by
  have h : (0:ℤ) ≤ (d.x1 - d.x0) ^ 2 + (d.y1 - d.y0) ^ 2 := by positivity
  have h3 : (d.distSq : ℤ) = (d.x1 - d.x0) ^ 2 + (d.y1 - d.y0) ^ 2 :=
    Int.toNat_of_nonneg h
  have h4 : (d.distSq : ℝ) =
      (((d.x1 - d.x0) ^ 2 + (d.y1 - d.y0) ^ 2 : ℤ) : ℝ) := by
    rw [← h3]
    norm_cast
  rw [h4]
  push_cast
  ring

/-- `distTenths n` is the integer nearest to `10 * sqrt n`: it is the
unique integer within half a unit of the exact value (the upper bound
is strict; a tie would force `20 * sqrt n` to be an odd integer, which
is impossible). -/
theorem distTenths_bounds (n : ℕ) :
    ((distTenths n : ℝ) - 1/2 ≤ 10 * Real.sqrt n) ∧
      10 * Real.sqrt n < (distTenths n : ℝ) + 1/2 := by
  set s := Nat.sqrt (400 * n) with hs
  have hsq : Real.sqrt ((400 * n : ℕ) : ℝ) = 20 * Real.sqrt n := by
    push_cast
    rw [show (400 : ℝ) * n = 20 ^ 2 * n by norm_num,
      Real.sqrt_mul (by positivity) _, Real.sqrt_sq (by norm_num)]
  have hlow : (s : ℝ) ≤ 20 * Real.sqrt n := by
    have hle := Real.nat_sqrt_le_real_sqrt (a := 400 * n)
    rw [hsq] at hle
    exact_mod_cast hle
  have hhigh : 20 * Real.sqrt n < (s : ℝ) + 1 := by
    have hlt := Real.real_sqrt_lt_nat_sqrt_succ (a := 400 * n)
    rw [hsq] at hlt
    exact_mod_cast hlt
  have ht : distTenths n = (s + 1) / 2 := by rw [hs]; rfl
  rcases Nat.even_or_odd s with ⟨k, hk⟩ | ⟨k, hk⟩
  · have htk : distTenths n = k := by rw [ht]; omega
    have hkr : (s : ℝ) = (k : ℝ) + (k : ℝ) := by exact_mod_cast hk
    rw [htk]
    constructor <;> linarith
  · have htk : distTenths n = k + 1 := by rw [ht]; omega
    have hkr : (s : ℝ) = 2 * (k : ℝ) + 1 := by exact_mod_cast hk
    rw [htk]
    push_cast
    constructor <;> linarith

/-- `distTenths 25 = 50`, derived from the bounds theorem (the
well-founded `Nat.sqrt` is never evaluated by the kernel). -/
theorem distTenths_twentyfive : distTenths 25 = 50 := by
  obtain ⟨hb1, hb2⟩ := distTenths_bounds 25
  have h5 : Real.sqrt ((25 : ℕ) : ℝ) = 5 := by
    rw [show ((25 : ℕ) : ℝ) = 5 ^ 2 by norm_num]
    exact Real.sqrt_sq (by norm_num)
  rw [h5] at hb1 hb2
  have h1 : ((distTenths 25 : ℕ) : ℝ) < 51 := by linarith
  have h2 : ((49 : ℕ) : ℝ) < ((distTenths 25 : ℕ) : ℝ) := by push_cast; linarith
  have h3 : distTenths 25 < 51 := by exact_mod_cast h1
  have h4 : 49 < distTenths 25 := by exact_mod_cast h2
  omega

/-- C8: for a drawing with the `measure` flag, the display path places
exactly the label `measurementLabel d` at the midpoint; that label is
the digits of `distTenths d.distSq` rendered with one decimal digit and
a `" px"` suffix, where `distTenths d.distSq / 10` is the one-decimal
rounding of `sqrt ((x1-x0)^2 + (y1-y0)^2)`; and for start (0,0), end
(3,4) the label is `"5.0 px"`. -/
theorem measurement_label_correct (d : Drawing) (hty : d.ty = "line")
    (hm : d.measure = true) :
    DrawOp.text (((d.x0 : ℚ) + d.x1) / 2) (((d.y0 : ℚ) + d.y1) / 2)
        (measurementLabel d) d.color ∈ displayOpsOf d ∧
      measurementLabel d =
        toString (distTenths d.distSq / 10) ++ "." ++
          toString (distTenths d.distSq % 10) ++ " px" ∧
      (d.distSq : ℝ) = ((d.x1 : ℝ) - d.x0) ^ 2 + ((d.y1 : ℝ) - d.y0) ^ 2 ∧
      ((distTenths d.distSq : ℝ) - 1/2 ≤ 10 * Real.sqrt d.distSq ∧
        10 * Real.sqrt d.distSq < (distTenths d.distSq : ℝ) + 1/2) ∧
      measurementLabel measureDrawing = "5.0 px" := by
  refine ⟨?_, rfl, distSq_cast d, distTenths_bounds d.distSq, ?_⟩
  · simp [displayOpsOf, hty, hm]
  · have hds : measureDrawing.distSq = 25 := by decide
    simp only [measurementLabel, hds, distTenths_twentyfive]
    decide

theorem measurement_label_correct_witness :
    measureDrawing.ty = "line" ∧ measureDrawing.measure = true ∧
      (DrawOp.text (((measureDrawing.x0 : ℚ) + measureDrawing.x1) / 2)
            (((measureDrawing.y0 : ℚ) + measureDrawing.y1) / 2)
            (measurementLabel measureDrawing) measureDrawing.color ∈
          displayOpsOf measureDrawing ∧
        measurementLabel measureDrawing =
          toString (distTenths measureDrawing.distSq / 10) ++ "." ++
            toString (distTenths measureDrawing.distSq % 10) ++ " px" ∧
        (measureDrawing.distSq : ℝ) =
          ((measureDrawing.x1 : ℝ) - measureDrawing.x0) ^ 2 +
            ((measureDrawing.y1 : ℝ) - measureDrawing.y0) ^ 2 ∧
        ((distTenths measureDrawing.distSq : ℝ) - 1/2 ≤
            10 * Real.sqrt measureDrawing.distSq ∧
          10 * Real.sqrt measureDrawing.distSq <
            (distTenths measureDrawing.distSq : ℝ) + 1/2) ∧
        measurementLabel measureDrawing = "5.0 px") :=
  ⟨rfl, rfl, measurement_label_correct measureDrawing rfl rfl⟩
